import Mathlib

/-!
Shallow embedding of the conversation/query orchestration core of the
`advance-rag` frontend (`frontend/hooks/useChat.ts`).

The hook owns three pieces of React state: a `ConversationState` (message
log plus session pointers), a `loading` flag and a last-`error` slot.  All
state updates are whole-state replacements computed from the previous
state, so each setter is embedded as a pure function on an explicit state
value.

Two aspects of the source cannot live inside a pure embedding and are
made explicit parameters instead:
  * `makeId` draws from `Math.random()`; every operation that creates a
    message therefore takes the drawn id as an argument (the stream of
    `Math.random` outputs);
  * `new Date()` timestamps are passed in as `Nat` arguments;
  * the awaited network call (`sendQuery` / `sendClarification`) is an
    external effect; its result is passed in as a `RequestOutcome`
    (fulfilled with a response, or rejected with an error message).
-/

/-- `Citation` from the frontend types: display-only metadata. -/
structure Citation where
  source : Option String := none
  page : Option Int := none
  doc_id : Option String := none
  snippet : Option String := none
deriving DecidableEq, Repr

/-- One sub-answer of a structured backend response. -/
structure SubAnswer where
  query : String
  status : String
  answer : String
  citations : List Citation
  clarification_question : Option String := none
deriving DecidableEq, Repr

/-- The backend response payload (`QueryResponse` in the frontend types). -/
structure QueryResponse where
  conversation_id : String
  status : String
  sub_answers : List SubAnswer
  error_message : Option String := none
deriving DecidableEq, Repr

/-- A chat turn.  In the source `isLoading` is an optional boolean whose
absence is falsy; it is embedded as a `Bool` defaulting to `false`. -/
structure ChatMessage where
  id : String
  role : String
  content : String
  timestamp : Nat
  isLoading : Bool := false
  response : Option QueryResponse := none
deriving DecidableEq, Repr

/-- The conversation state held by the hook
(`{ messages, conversationId?, pendingClarificationIndex? }`).
`pendingClarificationIndex` is an `Int` option because the source stores the
result of `Array.prototype.findIndex`, which can be `-1`. -/
structure ConversationState where
  messages : List ChatMessage
  conversationId : Option String := none
  pendingClarificationIndex : Option Int := none
deriving DecidableEq, Repr

/-- The full hook state: conversation state plus the `loading` and `error`
`useState` cells. -/
structure HookState where
  state : ConversationState
  loading : Bool := false
  error : Option String := none
deriving DecidableEq, Repr

/-- Result of the awaited network call: the promise either fulfills with a
`QueryResponse` or rejects, in which case the coordinator extracts an error
message string. -/
inductive RequestOutcome where
  | success (resp : QueryResponse)
  | failure (msg : String)
deriving DecidableEq, Repr

/-- JavaScript `Array.prototype.findIndex`: index of the first element
satisfying the predicate, `-1` when none does. -/
def tsFindIndex (p : SubAnswer → Bool) : List SubAnswer → Int
  | [] => -1
  | sa :: rest =>
    if p sa then 0
    else
      let i := tsFindIndex p rest
      if i < 0 then -1 else i + 1

/-- JavaScript truthiness test for an optional string: `!x` is true when the
value is `undefined` or the empty string. -/
def optStringFalsy : Option String → Bool
  | none => true
  | some s => s == ""

/-- `addUserMessage(content)` with the generated id and timestamp made
explicit: appends `{ id, role: "user", content, timestamp }`. -/
def addUserMessage (id content : String) (t : Nat) (s : ConversationState) :
    ConversationState :=
  { s with messages :=
      s.messages ++ [{ id := id, role := "user", content := content, timestamp := t }] }

/-- `addLoadingMessage()` with the generated id and timestamp made explicit:
appends an assistant placeholder with empty content and `isLoading: true`. -/
def addLoadingMessage (id : String) (t : Nat) (s : ConversationState) :
    ConversationState :=
  { s with messages :=
      s.messages ++ [{ id := id, role := "assistant", content := "", timestamp := t,
                       isLoading := true }] }

/-- `resolveMessage(id, response)`: unconditionally updates the session
pointers from the response (`conversationId := response.conversation_id`;
`pendingClarificationIndex` from `findIndex` when the response status is
`"clarification_required"`, cleared otherwise) and maps over the messages,
rewriting the one(s) whose id matches. -/
def resolveMessage (id : String) (response : QueryResponse)
    (prev : ConversationState) : ConversationState :=
  { prev with
    conversationId := some response.conversation_id,
    pendingClarificationIndex :=
      if response.status = "clarification_required" then
        some (tsFindIndex (fun sa => sa.status = "clarification_required")
          response.sub_answers)
      else none,
    messages := prev.messages.map fun m =>
      if m.id = id then
        { m with isLoading := false, response := some response,
                 content := ((response.sub_answers.head?).map SubAnswer.answer).getD "" }
      else m }

/-- `failMessage(id, errText)`: maps over the messages, giving the matching
one `isLoading := false` and a synthesized failure response built from the
previous `conversationId` (or `""`). -/
def failMessage (id errText : String) (prev : ConversationState) :
    ConversationState :=
  { prev with
    messages := prev.messages.map fun m =>
      if m.id = id then
        { m with isLoading := false,
                 response := some
                   { conversation_id := prev.conversationId.getD "",
                     status := "failure",
                     sub_answers := [{ query := "", status := "failed",
                                       citations := [], answer := errText }] } }
      else m }

/-- Shared tail of `submitQuery` / `submitClarification` after the awaited
call settles: on fulfillment resolve the placeholder, on rejection record
the error and fail the placeholder; either way `loading` ends `false`. -/
def completeRequest (loadId : String) (outcome : RequestOutcome)
    (h : HookState) : HookState :=
  match outcome with
  | .success resp =>
      { h with state := resolveMessage loadId resp h.state, loading := false }
  | .failure msg =>
      { h with error := some msg, state := failMessage loadId msg h.state,
               loading := false }

/-- `submitQuery(prompt, pdfPath?)`: clears the error, appends the user
message and the loading placeholder, sets `loading`, dispatches
`sendQuery(prompt, conversationId, pdfPath)` and completes with the given
outcome.  Ids and timestamps of the two appended messages are explicit. -/
def submitQuery (prompt : String) (pdfPath : Option String)
    (idUser idLoad : String) (tu tl : Nat) (outcome : RequestOutcome)
    (h : HookState) : HookState :=
  let _ := pdfPath
  let h1 : HookState := { h with error := none }
  let h2 : HookState := { h1 with state := addUserMessage idUser prompt tu h1.state }
  let h3 : HookState := { h2 with state := addLoadingMessage idLoad tl h2.state }
  let h4 : HookState := { h3 with loading := true }
  completeRequest idLoad outcome h4

/-- `submitClarification(answer)`: returns the new hook state together with
the request actually dispatched to `sendClarification` (`none` when the
guard `!state.conversationId || state.pendingClarificationIndex ===
undefined` short-circuits). -/
def submitClarification (answer idUser idLoad : String) (tu tl : Nat)
    (outcome : RequestOutcome) (h : HookState) :
    HookState × Option (String × Int × String) :=
  if optStringFalsy h.state.conversationId ∨
      h.state.pendingClarificationIndex = none then (h, none)
  else
    let cid := h.state.conversationId.getD ""
    let idx := h.state.pendingClarificationIndex.getD 0
    let h1 : HookState := { h with error := none }
    let h2 : HookState :=
      { h1 with state := addUserMessage idUser ("Clarification: " ++ answer) tu h1.state }
    let h3 : HookState := { h2 with state := addLoadingMessage idLoad tl h2.state }
    let h4 : HookState := { h3 with loading := true }
    (completeRequest idLoad outcome h4, some (cid, idx, answer))

/-- `clearChat()`: resets the conversation state to `{ messages: [] }` and
clears the error; the `loading` cell is not touched. -/
def clearChat (h : HookState) : HookState :=
  { h with state := { messages := [] }, error := none }

/-!
## Spec-side definitions and shared fixtures
-/

/-- Bridge between the JavaScript `findIndex` model and the library's
`List.findIdx?`. -/
theorem tsFindIndex_eq_findIdx? (p : SubAnswer → Bool) (l : List SubAnswer) :
    tsFindIndex p l = ((l.findIdx? p).map Int.ofNat).getD (-1) := by
  induction l with
  | nil => rfl
  | cons a l ih =>
    by_cases h : p a
    · simp [tsFindIndex, h, List.findIdx?_cons]
    · simp only [tsFindIndex, h, Bool.false_eq_true, if_false, List.findIdx?_cons,
        List.findIdx?_succ]
      cases hfi : l.findIdx? p with
      | none =>
        have h1 : tsFindIndex p l = -1 := by rw [ih, hfi]; rfl
        simp [h1]
      | some j =>
        have h1 : tsFindIndex p l = (j : Int) := by rw [ih, hfi]; rfl
        rw [h1, if_neg (by omega)]
        simp only [Option.map_map, Function.comp_def, Option.map_some', Option.getD_some,
          Int.ofNat_eq_natCast]
        omega

/-- The pending-clarification pointer the resolver derives from a response,
written against the library's first-index-satisfying function: defined
exactly when the response status is `"clarification_required"`, and then
equal to the index of the first clarification-required sub-answer, with the
sentinel `-1` when no sub-answer matches. -/
def clarificationPointerSpec (r : QueryResponse) : Option Int :=
  if r.status = "clarification_required" then
    some (((r.sub_answers.findIdx?
        (fun sa => sa.status = "clarification_required")).map Int.ofNat).getD (-1))
  else none

/-- Empty conversation state (the initial state, also the post-`clearChat`
state). -/
def st0 : ConversationState := { messages := [] }

/-- A state with a single loading assistant placeholder `"m1"`. -/
def stOne : ConversationState :=
  { messages := [{ id := "m1", role := "assistant", content := "", timestamp := 0,
                   isLoading := true }] }

/-- A `clarification_required` response none of whose sub-answers is itself
`clarification_required`. -/
def rNoMatch : QueryResponse :=
  { conversation_id := "c1", status := "clarification_required",
    sub_answers := [{ query := "q", status := "answered", answer := "a",
                      citations := [] }] }

/-- An ordinary answered response. -/
def rAns : QueryResponse :=
  { conversation_id := "c7", status := "answered",
    sub_answers := [{ query := "q1", status := "answered", answer := "ans1",
                      citations := [] }] }

/-!
## Claims
-/

/-- C1 (counterexample): on a `clarification_required` response with no
matching sub-answer, the claim says `pendingClarificationIndex` is left
undefined; the code stores `findIndex`'s sentinel `-1`, which is defined. -/
theorem resolve_no_match_pointer_defined :
    (resolveMessage "m1" rNoMatch st0).pendingClarificationIndex = some (-1) ∧
    (resolveMessage "m1" rNoMatch st0).pendingClarificationIndex ≠ none := by
  constructor <;> decide

/-- C1 (amended): after `resolve`, `pendingClarificationIndex` is defined
iff the response status is `"clarification_required"`; it then equals the
index of the first sub-answer with status `"clarification_required"`, or
`-1` when no sub-answer matches. -/
theorem resolve_clarification_pointer (s : ConversationState) (id : String)
    (r : QueryResponse) :
    (resolveMessage id r s).pendingClarificationIndex = clarificationPointerSpec r := by
  simp only [resolveMessage, clarificationPointerSpec, tsFindIndex_eq_findIdx?]

/-- C2 (counterexample): resolving against the post-clear empty state with
an id that no message carries still mutates `conversationId`, so `resolve`
is not a no-op on the whole state when the id is missing. -/
theorem resolve_after_clear_mutates_session :
    st0.conversationId = none ∧
    (resolveMessage "ghost" rAns st0).conversationId = some "c7" := by
  constructor <;> decide

/-- C2 (amended): when no message carries the id, `resolve` leaves the
message log unchanged (nothing is reintroduced) but still overwrites
`conversationId` with the response's id and recomputes
`pendingClarificationIndex` from the response alone. -/
theorem resolve_missing_id_frame (s : ConversationState) (id : String)
    (r : QueryResponse) (h : ∀ m ∈ s.messages, m.id ≠ id) :
    (resolveMessage id r s).messages = s.messages ∧
    (resolveMessage id r s).conversationId = some r.conversation_id ∧
    (resolveMessage id r s).pendingClarificationIndex = clarificationPointerSpec r := by
  refine ⟨?_, rfl, ?_⟩
  · show s.messages.map _ = s.messages
    conv_rhs => rw [← List.map_id s.messages]
    apply List.map_congr_left
    intro m hm
    simp [h m hm]
  · simp only [resolveMessage, clarificationPointerSpec, tsFindIndex_eq_findIdx?]

/-- C2 (witness): instantiated at a one-message state and an id that no
message carries. -/
theorem resolve_missing_id_frame_witness :
    (resolveMessage "ghost" rAns stOne).messages = stOne.messages ∧
    (resolveMessage "ghost" rAns stOne).conversationId = some "c7" ∧
    (resolveMessage "ghost" rAns stOne).pendingClarificationIndex
      = clarificationPointerSpec rAns :=
  resolve_missing_id_frame stOne "ghost" rAns (by decide)

/-- A hook state whose conversation id is the *empty string* (a defined
value that is nevertheless JS-falsy) with a pending clarification. -/
def hEmptyCid : HookState :=
  { state := { messages := [], conversationId := some "",
               pendingClarificationIndex := some 0 } }

/-- C3 (counterexample): with `conversationId = ""` (defined) and
`pendingClarificationIndex = 0` (defined), the claim says a request is
issued; the truthiness guard `!state.conversationId` trips on the empty
string, so the call is a complete no-op and no request is dispatched. -/
theorem submitClarification_empty_cid_noop :
    hEmptyCid.state.conversationId ≠ none ∧
    hEmptyCid.state.pendingClarificationIndex ≠ none ∧
    submitClarification "a" "u1" "l1" 0 0 (RequestOutcome.failure "e") hEmptyCid
      = (hEmptyCid, none) := by
  refine ⟨by decide, by decide, by decide⟩

/-- C3 (amended): `submitClarification` is a no-op issuing no request when
`conversationId` is undefined *or empty* or `pendingClarificationIndex` is
undefined; when `conversationId` is a non-empty string and the pointer is
defined it clears the error, appends the `"Clarification: " + answer` user
message and a loading placeholder, sets `loading`, dispatches
`(conversationId, pendingClarificationIndex, answer)` and completes with
the request outcome. -/
theorem submitClarification_guard (answer idU idL : String) (tu tl : Nat)
    (outcome : RequestOutcome) (h : HookState) :
    ((h.state.conversationId = none ∨ h.state.conversationId = some "" ∨
        h.state.pendingClarificationIndex = none) →
      submitClarification answer idU idL tu tl outcome h = (h, none)) ∧
    (∀ (c : String) (i : Int), h.state.conversationId = some c → c ≠ "" →
      h.state.pendingClarificationIndex = some i →
      submitClarification answer idU idL tu tl outcome h =
        (completeRequest idL outcome
          { h with error := none, loading := true,
                   state := addLoadingMessage idL tl
                     (addUserMessage idU ("Clarification: " ++ answer) tu h.state) },
         some (c, i, answer))) := by
  constructor
  · intro hd
    have hg : optStringFalsy h.state.conversationId = true ∨
        h.state.pendingClarificationIndex = none := by
      rcases hd with h1 | h1 | h1 <;> simp [optStringFalsy, h1]
    rw [submitClarification, if_pos hg]
  · intro c i hc hcne hp
    have hg : ¬ (optStringFalsy h.state.conversationId = true ∨
        h.state.pendingClarificationIndex = none) := by
      simp [optStringFalsy, hc, hp, hcne]
    rw [submitClarification, if_neg hg]
    simp [hc, hp]

/-- C3 (witness): instantiated at a state with a non-empty conversation id
and a pending pointer, exercising the dispatching branch of the theorem. -/
theorem submitClarification_guard_witness :
    submitClarification "yearly revenue" "u1" "l1" 3 4
        (RequestOutcome.success rAns)
        { state := { messages := [], conversationId := some "c1",
                     pendingClarificationIndex := some 0 } } =
      (completeRequest "l1" (RequestOutcome.success rAns)
        { state := addLoadingMessage "l1" 4
            (addUserMessage "u1" ("Clarification: " ++ "yearly revenue") 3
              { messages := [], conversationId := some "c1",
                pendingClarificationIndex := some 0 }),
          error := none, loading := true },
       some ("c1", 0, "yearly revenue")) :=
  (submitClarification_guard "yearly revenue" "u1" "l1" 3 4
      (RequestOutcome.success rAns) _).2 "c1" 0 rfl (by decide) rfl

/-- The failure response `failMessage` synthesizes for a message, from the
session id at failure time and the error text. -/
def failureResponse (cid : Option String) (errText : String) : QueryResponse :=
  { conversation_id := cid.getD "", status := "failure",
    sub_answers := [{ query := "", status := "failed", citations := [],
                      answer := errText }] }

/-- C4: `fail(id, errText)` gives every message carrying the id
`isLoading = false` and the synthesized single-sub-answer failure response
built from the previous session id (or `""`); when no message carries the
id the state is unchanged. -/
theorem failMessage_spec (s : ConversationState) (id errText : String) :
    (∀ m ∈ (failMessage id errText s).messages, m.id = id →
      m.isLoading = false ∧
      m.response = some (failureResponse s.conversationId errText)) ∧
    ((∀ m ∈ s.messages, m.id ≠ id) → failMessage id errText s = s) := by
  constructor
  · intro m hm hid
    rw [failMessage] at hm
    simp only [List.mem_map] at hm
    obtain ⟨m0, hm0, rfl⟩ := hm
    by_cases h0 : m0.id = id
    · simp [h0, failureResponse]
    · simp only [if_neg h0] at hid ⊢
      exact absurd hid h0
  · intro hall
    cases s with
    | mk msgs cid pend =>
      simp only [failMessage, ConversationState.mk.injEq, and_true, true_and]
      conv_rhs => rw [← List.map_id msgs]
      apply List.map_congr_left
      intro m hm
      simp [hall m hm]

/-- C4 (witness): failing an id no message carries leaves the one-message
state untouched. -/
theorem failMessage_spec_witness : failMessage "zz" "boom" stOne = stOne :=
  (failMessage_spec stOne "zz" "boom").2 (by decide)

/-- C5: after `resolve(id, r)`, every message carrying the id displays
`r.sub_answers[0].answer` when the sub-answer list is non-empty and the
empty string when it is empty. -/
theorem resolve_content_spec (s : ConversationState) (id : String)
    (r : QueryResponse) :
    ∀ m ∈ (resolveMessage id r s).messages, m.id = id →
      (r.sub_answers = [] → m.content = "") ∧
      (∀ sa rest, r.sub_answers = sa :: rest → m.content = sa.answer) := by
  intro m hm hid
  rw [resolveMessage] at hm
  simp only [List.mem_map] at hm
  obtain ⟨m0, hm0, rfl⟩ := hm
  by_cases h0 : m0.id = id
  · constructor
    · intro hnil
      simp [h0, hnil]
    · intro sa rest hcons
      simp [h0, hcons]
  · simp only [if_neg h0] at hid ⊢
    exact absurd hid h0

/-- C5 (witness): resolving the single placeholder `"m1"` with a
one-sub-answer response displays that sub-answer's text. -/
theorem resolve_content_spec_witness :
    ({ id := "m1", role := "assistant", content := "ans1", timestamp := 0,
       isLoading := false, response := some rAns } : ChatMessage).content
      = "ans1" :=
  (resolve_content_spec stOne "m1" rAns
      { id := "m1", role := "assistant", content := "ans1", timestamp := 0,
        isLoading := false, response := some rAns }
      (by decide) (by decide)).2
    { query := "q1", status := "answered", answer := "ans1", citations := [] }
    [] (by decide)

/-- C6: every `submitQuery` call grows the message log by exactly two —
the literal-prompt user message followed by the assistant loading
placeholder — whatever the request outcome, because `resolve` and `fail`
map over messages without adding or removing any. -/
theorem submitQuery_appends_two (prompt : String) (pdfPath : Option String)
    (idU idL : String) (tu tl : Nat) (outcome : RequestOutcome) (h : HookState) :
    (submitQuery prompt pdfPath idU idL tu tl outcome h).state.messages.length
      = h.state.messages.length + 2 ∧
    (∀ (s : ConversationState) (i : String) (r : QueryResponse),
      (resolveMessage i r s).messages.length = s.messages.length) ∧
    (∀ (s : ConversationState) (i e : String),
      (failMessage i e s).messages.length = s.messages.length) ∧
    (addLoadingMessage idL tl (addUserMessage idU prompt tu h.state)).messages
      = h.state.messages ++
        [{ id := idU, role := "user", content := prompt, timestamp := tu },
         { id := idL, role := "assistant", content := "", timestamp := tl,
           isLoading := true }] := by
  refine ⟨?_, ?_, ?_, ?_⟩
  · cases outcome <;>
      simp [submitQuery, completeRequest, resolveMessage, failMessage,
        addUserMessage, addLoadingMessage]
  · intro s i r; simp [resolveMessage]
  · intro s i e; simp [failMessage]
  · simp [addUserMessage, addLoadingMessage]

/-- C7: `resolve(id, r)` is idempotent — applying it twice to any state
yields exactly the state obtained by applying it once, so the derived
content is also identical. -/
theorem resolveMessage_idempotent (s : ConversationState) (id : String)
    (r : QueryResponse) :
    resolveMessage id r (resolveMessage id r s) = resolveMessage id r s := by
  simp only [resolveMessage, List.map_map]
  congr 1
  apply List.map_congr_left
  intro m _
  by_cases hm : m.id = id <;> simp [Function.comp, hm]

/-- C8 (counterexample): `makeId` is `Math.random()`-based and carries no
uniqueness guarantee, so a repeated draw produces a reachable state with
two messages sharing an id — the ids are not always pairwise distinct. -/
theorem duplicate_ids_reachable :
    ¬ (((addUserMessage "a" "second" 1 (addUserMessage "a" "first" 0 st0)).messages.map
        ChatMessage.id).Nodup) := by decide

/-- C8 (amended): message ids come from the random generator's draws;
*provided* a draw is distinct from every id already in the log, appending a
user message or a loading placeholder preserves pairwise-distinct ids, the
new placeholder is the unique message carrying its id, and `resolve`/`fail`
never change any id — so each request targets exactly the placeholder it
created. -/
theorem message_ids_distinct (s : ConversationState) (id content : String)
    (t : Nat) (h1 : (s.messages.map ChatMessage.id).Nodup)
    (h2 : id ∉ s.messages.map ChatMessage.id) :
    ((addUserMessage id content t s).messages.map ChatMessage.id).Nodup ∧
    ((addLoadingMessage id t s).messages.map ChatMessage.id).Nodup ∧
    (∀ (r : QueryResponse) (i : String),
      (resolveMessage i r s).messages.map ChatMessage.id
        = s.messages.map ChatMessage.id) ∧
    (∀ (e i : String),
      (failMessage i e s).messages.map ChatMessage.id
        = s.messages.map ChatMessage.id) ∧
    ((addLoadingMessage id t s).messages.filter (fun m => m.id = id)).length
      = 1 := by
  have hfresh : ∀ m ∈ s.messages, ¬ m.id = id := by
    intro m hm heq
    exact h2 (heq ▸ List.mem_map_of_mem ChatMessage.id hm)
  refine ⟨?_, ?_, ?_, ?_, ?_⟩
  · simp only [addUserMessage, List.map_append, List.nodup_append]
    refine ⟨h1, by simp, ?_⟩
    intro a ha
    simp only [List.map_cons, List.map_nil, List.mem_singleton]
    intro hc
    exact h2 (hc ▸ ha)
  · simp only [addLoadingMessage, List.map_append, List.nodup_append]
    refine ⟨h1, by simp, ?_⟩
    intro a ha
    simp only [List.map_cons, List.map_nil, List.mem_singleton]
    intro hc
    exact h2 (hc ▸ ha)
  · intro r i
    simp only [resolveMessage, List.map_map]
    apply List.map_congr_left
    intro m _
    by_cases hm : m.id = i <;> simp [hm]
  · intro e i
    simp only [failMessage, List.map_map]
    apply List.map_congr_left
    intro m _
    by_cases hm : m.id = i <;> simp [hm]
  · simp only [addLoadingMessage, List.filter_append]
    rw [List.filter_eq_nil_iff.mpr (by intro m hm; simpa using hfresh m hm)]
    simp

/-- C8 (witness): instantiated at the empty log with the draw `"a"`. -/
theorem message_ids_distinct_witness :
    ((addUserMessage "a" "hi" 0 st0).messages.map ChatMessage.id).Nodup :=
  (message_ids_distinct st0 "a" "hi" 0 (by decide) (by decide)).1

/-- C9: `fail` never touches the session pointers — `conversationId` and
`pendingClarificationIndex` survive a transport failure unchanged, both for
the bare `failMessage` transform and across a whole failed `submitQuery`
turn. -/
theorem failMessage_session_frame (s : ConversationState) (i e : String)
    (prompt : String) (pdf : Option String) (idU idL : String) (tu tl : Nat)
    (msg : String) (h : HookState) :
    (failMessage i e s).conversationId = s.conversationId ∧
    (failMessage i e s).pendingClarificationIndex = s.pendingClarificationIndex ∧
    (submitQuery prompt pdf idU idL tu tl (RequestOutcome.failure msg) h).state.conversationId
      = h.state.conversationId ∧
    (submitQuery prompt pdf idU idL tu tl (RequestOutcome.failure msg) h).state.pendingClarificationIndex
      = h.state.pendingClarificationIndex :=
  ⟨rfl, rfl, rfl, rfl⟩

/-- C10: `clearChat` empties the message log, clears both session pointers
and the last error, and leaves the `loading` flag exactly as it was — an
in-flight request keeps `loading = true` until its own completion resets
it. -/
theorem clearChat_spec (h : HookState) :
    (clearChat h).state.messages = [] ∧
    (clearChat h).state.conversationId = none ∧
    (clearChat h).state.pendingClarificationIndex = none ∧
    (clearChat h).error = none ∧
    (clearChat h).loading = h.loading :=
  ⟨rfl, rfl, rfl, rfl, rfl⟩
